import Mathlib

/-!
Shallow embedding of the LSM303D accelerometer/magnetometer driver
(src/src/drivers/lsm303d/lsm303d.cpp) and proofs about its configuration,
reset, self-test, measurement and read logic.

Machine floats of the source are modelled as rationals; `unsigned` fields as
`Nat`; device register bytes as `Nat` values below 256; fallible operations
return the driver state paired with an integer return code (0 = OK,
negative = -errno), as in the source.
-/

/- ------------------------------------------------------------------ -/
/- Constants from the source file.                                     -/
/- ------------------------------------------------------------------ -/

def LSM303D_ONE_G : ℚ := 980665 / 100000

def LSM303D_ACCEL_DEFAULT_RANGE_G : Nat := 8
def LSM303D_ACCEL_DEFAULT_RATE : Nat := 800
def LSM303D_ACCEL_DEFAULT_ONCHIP_FILTER_FREQ : Nat := 50
def LSM303D_ACCEL_DEFAULT_DRIVER_FILTER_FREQ : Nat := 30
def LSM303D_MAG_DEFAULT_RANGE_GA : Nat := 2
def LSM303D_MAG_DEFAULT_RATE : Nat := 100

/-- register addresses used by the modelled operations -/
def ADDR_CTRL_REG1 : Nat := 0x20
def ADDR_CTRL_REG2 : Nat := 0x21
def ADDR_CTRL_REG3 : Nat := 0x22
def ADDR_CTRL_REG4 : Nat := 0x23
def ADDR_CTRL_REG5 : Nat := 0x24
def ADDR_CTRL_REG6 : Nat := 0x25
def ADDR_CTRL_REG7 : Nat := 0x26

def REG1_RATE_BITS_A : Nat := 0xF0
def REG1_RATE_100HZ_A : Nat := 0x60
def REG1_RATE_200HZ_A : Nat := 0x70
def REG1_RATE_400HZ_A : Nat := 0x80
def REG1_RATE_800HZ_A : Nat := 0x90
def REG1_RATE_1600HZ_A : Nat := 0xA0

def REG1_BDU_UPDATE : Nat := 8
def REG1_Z_ENABLE_A : Nat := 4
def REG1_Y_ENABLE_A : Nat := 2
def REG1_X_ENABLE_A : Nat := 1

def REG2_ANTIALIAS_FILTER_BW_BITS_A : Nat := 0xC0
def REG2_AA_FILTER_BW_773HZ_A : Nat := 0x00
def REG2_AA_FILTER_BW_194HZ_A : Nat := 0x40
def REG2_AA_FILTER_BW_362HZ_A : Nat := 0x80
def REG2_AA_FILTER_BW_50HZ_A : Nat := 0xC0

def REG2_FULL_SCALE_BITS_A : Nat := 0x38
def REG2_FULL_SCALE_2G_A : Nat := 0x00
def REG2_FULL_SCALE_4G_A : Nat := 0x08
def REG2_FULL_SCALE_6G_A : Nat := 0x10
def REG2_FULL_SCALE_8G_A : Nat := 0x18
def REG2_FULL_SCALE_16G_A : Nat := 0x20

def REG5_RES_HIGH_M : Nat := 0x60
def REG5_RATE_BITS_M : Nat := 0x1C
def REG5_RATE_25HZ_M : Nat := 0x0C
def REG5_RATE_50HZ_M : Nat := 0x10
def REG5_RATE_100HZ_M : Nat := 0x14

def REG6_FULL_SCALE_BITS_M : Nat := 0x60
def REG6_FULL_SCALE_2GA_M : Nat := 0x00
def REG6_FULL_SCALE_4GA_M : Nat := 0x20
def REG6_FULL_SCALE_8GA_M : Nat := 0x40
def REG6_FULL_SCALE_12GA_M : Nat := 0x60

def REG7_CONT_MODE_M : Nat := 0x00

/-- return codes: OK is 0, errors are negated errno values as in NuttX -/
def OK : Int := 0
def EINVAL : Int := 22
def ENOSPC : Int := 28
def EAGAIN : Int := 11

/- ------------------------------------------------------------------ -/
/- Device register file.                                               -/
/- ------------------------------------------------------------------ -/

/-- The register file of the LSM303D chip, restricted to the registers the
modelled operations touch.  `r02` and `r15` are the undocumented I2C control
registers used by `disable_i2c`. -/
structure DeviceRegs where
  r02 : Nat
  r15 : Nat
  ctrl1 : Nat
  ctrl2 : Nat
  ctrl3 : Nat
  ctrl4 : Nat
  ctrl5 : Nat
  ctrl6 : Nat
  ctrl7 : Nat
deriving DecidableEq, Repr

/-- read a register byte of the device by address (registers outside the
modelled set read as 0) -/
def DeviceRegs.readAddr (d : DeviceRegs) (addr : Nat) : Nat :=
  if addr = 0x02 then d.r02
  else if addr = 0x15 then d.r15
  else if addr = ADDR_CTRL_REG1 then d.ctrl1
  else if addr = ADDR_CTRL_REG2 then d.ctrl2
  else if addr = ADDR_CTRL_REG3 then d.ctrl3
  else if addr = ADDR_CTRL_REG4 then d.ctrl4
  else if addr = ADDR_CTRL_REG5 then d.ctrl5
  else if addr = ADDR_CTRL_REG6 then d.ctrl6
  else if addr = ADDR_CTRL_REG7 then d.ctrl7
  else 0

/-- write a register byte of the device by address -/
def DeviceRegs.writeAddr (d : DeviceRegs) (addr v : Nat) : DeviceRegs :=
  if addr = 0x02 then { d with r02 := v }
  else if addr = 0x15 then { d with r15 := v }
  else if addr = ADDR_CTRL_REG1 then { d with ctrl1 := v }
  else if addr = ADDR_CTRL_REG2 then { d with ctrl2 := v }
  else if addr = ADDR_CTRL_REG3 then { d with ctrl3 := v }
  else if addr = ADDR_CTRL_REG4 then { d with ctrl4 := v }
  else if addr = ADDR_CTRL_REG5 then { d with ctrl5 := v }
  else if addr = ADDR_CTRL_REG6 then { d with ctrl6 := v }
  else if addr = ADDR_CTRL_REG7 then { d with ctrl7 := v }
  else d

/- ------------------------------------------------------------------ -/
/- Calibration, filter, report and buffer types.                       -/
/- ------------------------------------------------------------------ -/

/-- `struct accel_scale`: per-axis offset and multiplicative scale -/
structure AccelScale where
  x_offset : ℚ
  x_scale : ℚ
  y_offset : ℚ
  y_scale : ℚ
  z_offset : ℚ
  z_scale : ℚ
deriving DecidableEq, Repr

/-- `struct mag_scale`: per-axis offset and multiplicative scale -/
structure MagScale where
  x_offset : ℚ
  x_scale : ℚ
  y_offset : ℚ
  y_scale : ℚ
  z_offset : ℚ
  z_scale : ℚ
deriving DecidableEq, Repr

/-- Modelled from the spec: `math::LowPassFilter2p`
(mathlib/math/filter/LowPassFilter2p.hpp) is not under src/.  The spec
describes it as a per-axis second-order low-pass filter carrying recursive
state, whose internal state is reset when it is reconfigured
(`set_cutoff_frequency` stores the sample rate and cutoff), and exposing
`get_cutoff_freq`.  The spec gives no coefficient formula and no claim
depends on the numeric filter output, so `apply` passes the input through
while updating the two delay elements. -/
structure LowPassFilter2p where
  sample_freq : ℚ
  cutoff_freq : ℚ
  delay1 : ℚ
  delay2 : ℚ
deriving DecidableEq, Repr

def LowPassFilter2p.set_cutoff_frequency (_f : LowPassFilter2p)
    (samplerate cutoff : ℚ) : LowPassFilter2p :=
  { sample_freq := samplerate, cutoff_freq := cutoff, delay1 := 0, delay2 := 0 }

def LowPassFilter2p.get_cutoff_freq (f : LowPassFilter2p) : ℚ :=
  f.cutoff_freq

def LowPassFilter2p.apply (f : LowPassFilter2p) (x : ℚ) : ℚ × LowPassFilter2p :=
  (x, { f with delay1 := x, delay2 := f.delay1 })

/-- `struct accel_report` as filled in by `LSM303D::measure` -/
structure AccelReport where
  timestamp : Nat
  error_count : Nat
  x : ℚ
  y : ℚ
  z : ℚ
  x_raw : Int
  y_raw : Int
  z_raw : Int
  scaling : ℚ
  range_m_s2 : ℚ
deriving DecidableEq, Repr

/-- `struct mag_report` as filled in by `LSM303D::mag_measure` -/
structure MagReport where
  timestamp : Nat
  x : ℚ
  y : ℚ
  z : ℚ
  x_raw : Int
  y_raw : Int
  z_raw : Int
  scaling : ℚ
  range_ga : ℚ
deriving DecidableEq, Repr

/-- Modelled from the spec: `RingBuffer` (drivers/device/ringbuffer.h) is not
under src/.  Per the spec it is a fixed-capacity circular sample buffer:
`force` pushes and overwrites the oldest entry when full, `get` pops in FIFO
order, `flush` drops all buffered samples.  Items are kept oldest-first. -/
structure RingBuffer (α : Type) where
  capacity : Nat
  items : List α
deriving DecidableEq, Repr

def RingBuffer.force {α : Type} (b : RingBuffer α) (x : α) : RingBuffer α :=
  let it := b.items ++ [x]
  { b with items := if b.capacity < it.length then it.drop (it.length - b.capacity) else it }

def RingBuffer.get {α : Type} (b : RingBuffer α) : Option α × RingBuffer α :=
  match b.items with
  | [] => (none, b)
  | x :: rest => (some x, { b with items := rest })

def RingBuffer.flush {α : Type} (b : RingBuffer α) : RingBuffer α :=
  { b with items := [] }

/- ------------------------------------------------------------------ -/
/- Driver state.                                                       -/
/- ------------------------------------------------------------------ -/

/-- The LSM303D driver instance state: the private fields of class `LSM303D`
that the modelled operations read or write, plus the device register file the
driver talks to over SPI.  Perf counters are modelled as plain counts. -/
structure LSM303D where
  device : DeviceRegs
  call_accel_interval : Nat
  call_mag_interval : Nat
  accel_reports : RingBuffer AccelReport
  mag_reports : RingBuffer MagReport
  accel_scale : AccelScale
  accel_range_m_s2 : ℚ
  accel_range_scale : ℚ
  accel_samplerate : Nat
  accel_onchip_filter_bandwith : Nat
  mag_scale : MagScale
  mag_range_ga : Nat
  mag_range_scale : ℚ
  mag_samplerate : Nat
  accel_read : Nat
  mag_read_count : Nat
  reg1_resets : Nat
  reg7_resets : Nat
  accel_reschedules : Nat
  accel_filter_x : LowPassFilter2p
  accel_filter_y : LowPassFilter2p
  accel_filter_z : LowPassFilter2p
  reg1_expected : Nat
  reg7_expected : Nat
deriving DecidableEq, Repr

/-- `LSM303D::read_reg` -/
def LSM303D.read_reg (s : LSM303D) (reg : Nat) : Nat :=
  s.device.readAddr reg

/-- `LSM303D::write_reg` -/
def LSM303D.write_reg (s : LSM303D) (reg v : Nat) : LSM303D :=
  { s with device := s.device.writeAddr reg v }

/-- `LSM303D::modify_reg`: bits are cleared before bits are set -/
def LSM303D.modify_reg (s : LSM303D) (reg clearbits setbits : Nat) : LSM303D :=
  let val := s.read_reg reg
  let val := val &&& (0xFF ^^^ clearbits)
  let val := val ||| setbits
  s.write_reg reg val

/-- `LSM303D::disable_i2c` -/
def LSM303D.disable_i2c (s : LSM303D) : LSM303D :=
  let a := s.read_reg 0x02
  let s := s.write_reg 0x02 (0x10 ||| a)
  let a := s.read_reg 0x02
  let s := s.write_reg 0x02 (0xF7 &&& a)
  let a := s.read_reg 0x15
  let s := s.write_reg 0x15 (0x80 ||| a)
  let a := s.read_reg 0x02
  s.write_reg 0x02 (0xE7 &&& a)

/- ------------------------------------------------------------------ -/
/- Configuration setters.                                              -/
/- ------------------------------------------------------------------ -/

/-- `LSM303D::accel_set_range`: zero selects the maximum supported range;
returns `-EINVAL` on a request above 16 g -/
def LSM303D.accel_set_range (s : LSM303D) (max_g : Nat) : LSM303D × Int :=
  let clearbits := REG2_FULL_SCALE_BITS_A
  let max_g := if max_g = 0 then 16 else max_g
  if max_g ≤ 2 then
    let s := { s with accel_range_m_s2 := 2 * LSM303D_ONE_G,
                      accel_range_scale := (61 / 1000000) * LSM303D_ONE_G }
    (s.modify_reg ADDR_CTRL_REG2 clearbits REG2_FULL_SCALE_2G_A, OK)
  else if max_g ≤ 4 then
    let s := { s with accel_range_m_s2 := 4 * LSM303D_ONE_G,
                      accel_range_scale := (122 / 1000000) * LSM303D_ONE_G }
    (s.modify_reg ADDR_CTRL_REG2 clearbits REG2_FULL_SCALE_4G_A, OK)
  else if max_g ≤ 6 then
    let s := { s with accel_range_m_s2 := 6 * LSM303D_ONE_G,
                      accel_range_scale := (183 / 1000000) * LSM303D_ONE_G }
    (s.modify_reg ADDR_CTRL_REG2 clearbits REG2_FULL_SCALE_6G_A, OK)
  else if max_g ≤ 8 then
    let s := { s with accel_range_m_s2 := 8 * LSM303D_ONE_G,
                      accel_range_scale := (244 / 1000000) * LSM303D_ONE_G }
    (s.modify_reg ADDR_CTRL_REG2 clearbits REG2_FULL_SCALE_8G_A, OK)
  else if max_g ≤ 16 then
    let s := { s with accel_range_m_s2 := 16 * LSM303D_ONE_G,
                      accel_range_scale := (732 / 1000000) * LSM303D_ONE_G }
    (s.modify_reg ADDR_CTRL_REG2 clearbits REG2_FULL_SCALE_16G_A, OK)
  else
    (s, -EINVAL)

/-- `LSM303D::mag_set_range`: zero selects the maximum supported range;
returns `-EINVAL` on a request above 12 Ga -/
def LSM303D.mag_set_range (s : LSM303D) (max_ga : Nat) : LSM303D × Int :=
  let clearbits := REG6_FULL_SCALE_BITS_M
  let max_ga := if max_ga = 0 then 12 else max_ga
  if max_ga ≤ 2 then
    let s := { s with mag_range_ga := 2, mag_range_scale := 80 / 1000000 }
    (s.modify_reg ADDR_CTRL_REG6 clearbits REG6_FULL_SCALE_2GA_M, OK)
  else if max_ga ≤ 4 then
    let s := { s with mag_range_ga := 4, mag_range_scale := 160 / 1000000 }
    (s.modify_reg ADDR_CTRL_REG6 clearbits REG6_FULL_SCALE_4GA_M, OK)
  else if max_ga ≤ 8 then
    let s := { s with mag_range_ga := 8, mag_range_scale := 320 / 1000000 }
    (s.modify_reg ADDR_CTRL_REG6 clearbits REG6_FULL_SCALE_8GA_M, OK)
  else if max_ga ≤ 12 then
    let s := { s with mag_range_ga := 12, mag_range_scale := 479 / 1000000 }
    (s.modify_reg ADDR_CTRL_REG6 clearbits REG6_FULL_SCALE_12GA_M, OK)
  else
    (s, -EINVAL)

/-- `LSM303D::accel_set_onchip_lowpass_filter_bandwidth`: zero selects the
highest bandwidth (773 Hz) -/
def LSM303D.accel_set_onchip_lowpass_filter_bandwidth (s : LSM303D)
    (bandwidth : Nat) : LSM303D × Int :=
  let clearbits := REG2_ANTIALIAS_FILTER_BW_BITS_A
  let bandwidth := if bandwidth = 0 then 773 else bandwidth
  if bandwidth ≤ 50 then
    let s := { s with accel_onchip_filter_bandwith := 50 }
    (s.modify_reg ADDR_CTRL_REG2 clearbits REG2_AA_FILTER_BW_50HZ_A, OK)
  else if bandwidth ≤ 194 then
    let s := { s with accel_onchip_filter_bandwith := 194 }
    (s.modify_reg ADDR_CTRL_REG2 clearbits REG2_AA_FILTER_BW_194HZ_A, OK)
  else if bandwidth ≤ 362 then
    let s := { s with accel_onchip_filter_bandwith := 362 }
    (s.modify_reg ADDR_CTRL_REG2 clearbits REG2_AA_FILTER_BW_362HZ_A, OK)
  else if bandwidth ≤ 773 then
    let s := { s with accel_onchip_filter_bandwith := 773 }
    (s.modify_reg ADDR_CTRL_REG2 clearbits REG2_AA_FILTER_BW_773HZ_A, OK)
  else
    (s, -EINVAL)

/-- `LSM303D::accel_set_driver_lowpass_filter`: reconfigures all three
per-axis driver filters, always returns OK -/
def LSM303D.accel_set_driver_lowpass_filter (s : LSM303D)
    (samplerate bandwidth : ℚ) : LSM303D × Int :=
  ({ s with accel_filter_x := s.accel_filter_x.set_cutoff_frequency samplerate bandwidth,
            accel_filter_y := s.accel_filter_y.set_cutoff_frequency samplerate bandwidth,
            accel_filter_z := s.accel_filter_z.set_cutoff_frequency samplerate bandwidth },
   OK)

/-- `LSM303D::accel_set_samplerate`: zero selects the maximum rate (1600 Hz);
also refreshes the watchdog's expected CTRL_REG1 value -/
def LSM303D.accel_set_samplerate (s : LSM303D) (frequency : Nat) : LSM303D × Int :=
  let clearbits := REG1_RATE_BITS_A
  let frequency := if frequency = 0 then 1600 else frequency
  if frequency ≤ 100 then
    let s := { s with accel_samplerate := 100 }
    let s := s.modify_reg ADDR_CTRL_REG1 clearbits REG1_RATE_100HZ_A
    ({ s with reg1_expected := (s.reg1_expected &&& (0xFF ^^^ clearbits)) ||| REG1_RATE_100HZ_A }, OK)
  else if frequency ≤ 200 then
    let s := { s with accel_samplerate := 200 }
    let s := s.modify_reg ADDR_CTRL_REG1 clearbits REG1_RATE_200HZ_A
    ({ s with reg1_expected := (s.reg1_expected &&& (0xFF ^^^ clearbits)) ||| REG1_RATE_200HZ_A }, OK)
  else if frequency ≤ 400 then
    let s := { s with accel_samplerate := 400 }
    let s := s.modify_reg ADDR_CTRL_REG1 clearbits REG1_RATE_400HZ_A
    ({ s with reg1_expected := (s.reg1_expected &&& (0xFF ^^^ clearbits)) ||| REG1_RATE_400HZ_A }, OK)
  else if frequency ≤ 800 then
    let s := { s with accel_samplerate := 800 }
    let s := s.modify_reg ADDR_CTRL_REG1 clearbits REG1_RATE_800HZ_A
    ({ s with reg1_expected := (s.reg1_expected &&& (0xFF ^^^ clearbits)) ||| REG1_RATE_800HZ_A }, OK)
  else if frequency ≤ 1600 then
    let s := { s with accel_samplerate := 1600 }
    let s := s.modify_reg ADDR_CTRL_REG1 clearbits REG1_RATE_1600HZ_A
    ({ s with reg1_expected := (s.reg1_expected &&& (0xFF ^^^ clearbits)) ||| REG1_RATE_1600HZ_A }, OK)
  else
    (s, -EINVAL)

/-- `LSM303D::mag_set_samplerate`: zero selects the maximum rate (100 Hz) -/
def LSM303D.mag_set_samplerate (s : LSM303D) (frequency : Nat) : LSM303D × Int :=
  let clearbits := REG5_RATE_BITS_M
  let frequency := if frequency = 0 then 100 else frequency
  if frequency ≤ 25 then
    let s := { s with mag_samplerate := 25 }
    (s.modify_reg ADDR_CTRL_REG5 clearbits REG5_RATE_25HZ_M, OK)
  else if frequency ≤ 50 then
    let s := { s with mag_samplerate := 50 }
    (s.modify_reg ADDR_CTRL_REG5 clearbits REG5_RATE_50HZ_M, OK)
  else if frequency ≤ 100 then
    let s := { s with mag_samplerate := 100 }
    (s.modify_reg ADDR_CTRL_REG5 clearbits REG5_RATE_100HZ_M, OK)
  else
    (s, -EINVAL)

/- ------------------------------------------------------------------ -/
/- Reset and self tests.                                               -/
/- ------------------------------------------------------------------ -/

/-- `LSM303D::reset`: disables the chip's I2C interface, re-enables both
channels with the driver's default enable/rate bits, refreshes the watchdog
expectations and reapplies the driver defaults for range, rate and filters;
finally clears both measurement counters -/
def LSM303D.reset (s : LSM303D) : LSM303D :=
  let s := s.disable_i2c
  let e1 := REG1_X_ENABLE_A ||| REG1_Y_ENABLE_A ||| REG1_Z_ENABLE_A |||
            REG1_BDU_UPDATE ||| REG1_RATE_800HZ_A
  let s := { s with reg1_expected := e1 }
  let s := s.write_reg ADDR_CTRL_REG1 e1
  let s := { s with reg7_expected := REG7_CONT_MODE_M }
  let s := s.write_reg ADDR_CTRL_REG7 REG7_CONT_MODE_M
  let s := s.write_reg ADDR_CTRL_REG5 REG5_RES_HIGH_M
  let s := s.write_reg ADDR_CTRL_REG3 0x04
  let s := s.write_reg ADDR_CTRL_REG4 0x04
  let s := (s.accel_set_range LSM303D_ACCEL_DEFAULT_RANGE_G).1
  let s := (s.accel_set_samplerate LSM303D_ACCEL_DEFAULT_RATE).1
  let s := (s.accel_set_driver_lowpass_filter
              (LSM303D_ACCEL_DEFAULT_RATE : ℚ)
              (LSM303D_ACCEL_DEFAULT_DRIVER_FILTER_FREQ : ℚ)).1
  let s := (s.accel_set_onchip_lowpass_filter_bandwidth
              LSM303D_ACCEL_DEFAULT_ONCHIP_FILTER_FREQ).1
  let s := (s.mag_set_range LSM303D_MAG_DEFAULT_RANGE_GA).1
  let s := (s.mag_set_samplerate LSM303D_MAG_DEFAULT_RATE).1
  { s with accel_read := 0, mag_read_count := 0 }

/-- `LSM303D::accel_self_test`: 0 on pass, 1 on fail -/
def LSM303D.accel_self_test (s : LSM303D) : Int :=
  if s.accel_read = 0 then 1
  else if |s.accel_scale.x_offset| < 1 / 1000000 then 1
  else if |s.accel_scale.x_scale - 1| > 2 / 5 ∨ |s.accel_scale.x_scale - 1| < 1 / 1000000 then 1
  else if |s.accel_scale.y_offset| < 1 / 1000000 then 1
  else if |s.accel_scale.y_scale - 1| > 2 / 5 ∨ |s.accel_scale.y_scale - 1| < 1 / 1000000 then 1
  else if |s.accel_scale.z_offset| < 1 / 1000000 then 1
  else if |s.accel_scale.z_scale - 1| > 2 / 5 ∨ |s.accel_scale.z_scale - 1| < 1 / 1000000 then 1
  else 0

/-- `LSM303D::mag_self_test`: 0 on pass, 1 on fail; the mag scale is not
checked because it is calibrated on chip -/
def LSM303D.mag_self_test (s : LSM303D) : Int :=
  if s.mag_read_count = 0 then 1
  else if |s.mag_scale.x_offset| < 1 / 1000000 then 1
  else if |s.mag_scale.y_offset| < 1 / 1000000 then 1
  else if |s.mag_scale.z_offset| < 1 / 1000000 then 1
  else 0

/- ------------------------------------------------------------------ -/
/- Measurement pipeline.                                               -/
/- ------------------------------------------------------------------ -/

/-- A scheduler effect issued by a measurement invocation:
`hrt_call_delay(&call, usec)` re-arms the pending trigger with a delay. -/
inductive SchedEvent where
  | delay (usec : Nat)
deriving DecidableEq, Repr

/-- The environment one measurement invocation observes: the accel data-ready
GPIO level, the current time, and the three signed 16-bit raw axis values the
burst transfer returns. -/
structure MeasureInput where
  drdy : Bool
  timestamp : Nat
  x_raw : Int
  y_raw : Int
  z_raw : Int
deriving DecidableEq, Repr

/-- `LSM303D::measure` (the accelerometer measurement routine): checks the
data-ready GPIO (not ready ⇒ one 100 µs reschedule and return), then the
CTRL_REG1 watchdog (mismatch ⇒ reset and return), then performs the burst
read, converts, filters, commits the report and bumps the read counter.
Returns the new state and the scheduler effects issued. -/
def LSM303D.measure (s : LSM303D) (inp : MeasureInput) : LSM303D × List SchedEvent :=
  if inp.drdy = false then
    ({ s with accel_reschedules := s.accel_reschedules + 1 }, [SchedEvent.delay 100])
  else if s.read_reg ADDR_CTRL_REG1 ≠ s.reg1_expected then
    (LSM303D.reset { s with reg1_resets := s.reg1_resets + 1 }, [])
  else
    let x_in_new := ((inp.x_raw * s.accel_range_scale) - s.accel_scale.x_offset) * s.accel_scale.x_scale
    let y_in_new := ((inp.y_raw * s.accel_range_scale) - s.accel_scale.y_offset) * s.accel_scale.y_scale
    let z_in_new := ((inp.z_raw * s.accel_range_scale) - s.accel_scale.z_offset) * s.accel_scale.z_scale
    let fx := s.accel_filter_x.apply x_in_new
    let fy := s.accel_filter_y.apply y_in_new
    let fz := s.accel_filter_z.apply z_in_new
    let report : AccelReport :=
      { timestamp := inp.timestamp
        error_count := 0
        x := fx.1, y := fy.1, z := fz.1
        x_raw := inp.x_raw, y_raw := inp.y_raw, z_raw := inp.z_raw
        scaling := s.accel_range_scale
        range_m_s2 := s.accel_range_m_s2 }
    ({ s with accel_filter_x := fx.2, accel_filter_y := fy.2, accel_filter_z := fz.2,
              accel_reports := s.accel_reports.force report,
              accel_read := s.accel_read + 1 }, [])

/-- `LSM303D::mag_measure`: checks the CTRL_REG7 watchdog (mismatch ⇒ reset
and return), then performs the burst read, converts and commits the mag
report and bumps the mag read counter. -/
def LSM303D.mag_measure (s : LSM303D) (inp : MeasureInput) : LSM303D × List SchedEvent :=
  if s.read_reg ADDR_CTRL_REG7 ≠ s.reg7_expected then
    (LSM303D.reset { s with reg7_resets := s.reg7_resets + 1 }, [])
  else
    let report : MagReport :=
      { timestamp := inp.timestamp
        x := ((inp.x_raw * s.mag_range_scale) - s.mag_scale.x_offset) * s.mag_scale.x_scale
        y := ((inp.y_raw * s.mag_range_scale) - s.mag_scale.y_offset) * s.mag_scale.y_scale
        z := ((inp.z_raw * s.mag_range_scale) - s.mag_scale.z_offset) * s.mag_scale.z_scale
        x_raw := inp.x_raw, y_raw := inp.y_raw, z_raw := inp.z_raw
        scaling := s.mag_range_scale
        range_ga := (s.mag_range_ga : ℚ) }
    ({ s with mag_reports := s.mag_reports.force report,
              mag_read_count := s.mag_read_count + 1 }, [])

/- ------------------------------------------------------------------ -/
/- The mag read path.                                                  -/
/- ------------------------------------------------------------------ -/

/-- Modelled from the spec: `sizeof(struct mag_report)` — drv_mag.h is not
under src/.  The exact byte size is platform-defined; only its positivity and
the quotient `buflen / sizeof(mag_report)` matter to the modelled logic, so
it is fixed as an arbitrary positive constant. -/
def magReportSize : Nat := 48

/-- pop up to `n` reports from a buffer (the `while (count--)` copy loop of
the automatic-mode read) -/
def RingBuffer.popUpTo {α : Type} : Nat → RingBuffer α → List α × RingBuffer α
  | 0, b => ([], b)
  | n + 1, b =>
    match b.get with
    | (none, b') => ([], b')
    | (some x, b') =>
      let r := RingBuffer.popUpTo n b'
      (x :: r.1, r.2)

/-- `LSM303D::mag_read` (the mag device-node read): in automatic mode copies
out up to `count` buffered mag reports (or `-EAGAIN` when none); in manual
mode (mag poll interval 0) it flushes the mag buffer, calls `measure()` —
the source calls the *accelerometer* measurement routine here — and copies
out one mag report if one is available.  Returns the new state, the byte
count or negative errno, and the mag reports copied to the caller. -/
def LSM303D.mag_read_op (s : LSM303D) (inp : MeasureInput) (buflen : Nat) :
    LSM303D × Int × List MagReport :=
  let count := buflen / magReportSize
  if count < 1 then
    (s, -ENOSPC, [])
  else if 0 < s.call_mag_interval then
    let r := s.mag_reports.popUpTo count
    let s := { s with mag_reports := r.2 }
    if r.1.length = 0 then (s, -EAGAIN, [])
    else (s, (r.1.length * magReportSize : Nat), r.1)
  else
    let s := { s with mag_reports := s.mag_reports.flush }
    let s := (s.measure inp).1
    match s.mag_reports.get with
    | (some m, b) => ({ s with mag_reports := b }, (magReportSize : Nat), [m])
    | (none, _) => (s, 0, [])

/- ------------------------------------------------------------------ -/
/- The ioctl arms the claims reference.                                -/
/- ------------------------------------------------------------------ -/

/-- the `ACCELIOCSSCALE` arm of `LSM303D::ioctl`: copies the new calibration
in only if the three scale factors sum to strictly between 2.0 and 4.0,
otherwise returns `-EINVAL` without touching anything -/
def LSM303D.ioctl_accel_set_scale (s : LSM303D) (ns : AccelScale) : LSM303D × Int :=
  let sum := ns.x_scale + ns.y_scale + ns.z_scale
  if 2 < sum ∧ sum < 4 then
    ({ s with accel_scale := ns }, OK)
  else
    (s, -EINVAL)

/-- the `MAGIOCSSCALE` arm of `LSM303D::mag_ioctl`: unconditionally copies
the new calibration in and returns OK -/
def LSM303D.mag_ioctl_set_scale (s : LSM303D) (ns : MagScale) : LSM303D × Int :=
  ({ s with mag_scale := ns }, OK)

/- ------------------------------------------------------------------ -/
/- A concrete post-constructor state, for witnesses.                   -/
/- ------------------------------------------------------------------ -/

/-- the driver state as established by the `LSM303D` constructor: intervals
zero, empty report buffers of capacity 2, unit calibration scales, zero
configuration and counters, device registers all zero -/
def LSM303D.initState : LSM303D :=
  { device := { r02 := 0, r15 := 0, ctrl1 := 0, ctrl2 := 0, ctrl3 := 0,
                ctrl4 := 0, ctrl5 := 0, ctrl6 := 0, ctrl7 := 0 }
    call_accel_interval := 0
    call_mag_interval := 0
    accel_reports := { capacity := 2, items := [] }
    mag_reports := { capacity := 2, items := [] }
    accel_scale := { x_offset := 0, x_scale := 1, y_offset := 0, y_scale := 1,
                     z_offset := 0, z_scale := 1 }
    accel_range_m_s2 := 0
    accel_range_scale := 0
    accel_samplerate := 0
    accel_onchip_filter_bandwith := 0
    mag_scale := { x_offset := 0, x_scale := 1, y_offset := 0, y_scale := 1,
                   z_offset := 0, z_scale := 1 }
    mag_range_ga := 0
    mag_range_scale := 0
    mag_samplerate := 0
    accel_read := 0
    mag_read_count := 0
    reg1_resets := 0
    reg7_resets := 0
    accel_reschedules := 0
    accel_filter_x := { sample_freq := 800, cutoff_freq := 30, delay1 := 0, delay2 := 0 }
    accel_filter_y := { sample_freq := 800, cutoff_freq := 30, delay1 := 0, delay2 := 0 }
    accel_filter_z := { sample_freq := 800, cutoff_freq := 30, delay1 := 0, delay2 := 0 }
    reg1_expected := 0
    reg7_expected := 0 }

/- ------------------------------------------------------------------ -/
/- Supported enumerated settings (spec side, for the selection claims). -/
/- ------------------------------------------------------------------ -/

def accelSupportedRangesG : List Nat := [2, 4, 6, 8, 16]
def magSupportedRangesGa : List Nat := [2, 4, 8, 12]
def accelSupportedRates : List Nat := [100, 200, 400, 800, 1600]
def magSupportedRates : List Nat := [25, 50, 100]

/-- Claim C4: every requested full-scale range selects the smallest supported
range that is at least the request (0 selects the maximum: 16 g accel, 12 Ga
mag; 5 g yields 6 g); a request above the maximum is rejected with an
out-of-range error and changes nothing. -/
theorem claim_C4_range_selection (s : LSM303D) (req : Nat) :
    (req ≠ 0 → req ≤ 16 →
      ∃ g ∈ accelSupportedRangesG, req ≤ g ∧
        (∀ g' ∈ accelSupportedRangesG, req ≤ g' → g ≤ g') ∧
        (s.accel_set_range req).2 = OK ∧
        (s.accel_set_range req).1.accel_range_m_s2 = (g : ℚ) * LSM303D_ONE_G) ∧
    ((s.accel_set_range 0).2 = OK ∧
      (s.accel_set_range 0).1.accel_range_m_s2 = 16 * LSM303D_ONE_G) ∧
    (s.accel_set_range 5).1.accel_range_m_s2 = 6 * LSM303D_ONE_G ∧
    (16 < req → s.accel_set_range req = (s, -EINVAL)) ∧
    (req ≠ 0 → req ≤ 12 →
      ∃ g ∈ magSupportedRangesGa, req ≤ g ∧
        (∀ g' ∈ magSupportedRangesGa, req ≤ g' → g ≤ g') ∧
        (s.mag_set_range req).2 = OK ∧
        (s.mag_set_range req).1.mag_range_ga = g) ∧
    ((s.mag_set_range 0).2 = OK ∧ (s.mag_set_range 0).1.mag_range_ga = 12) ∧
    (12 < req → s.mag_set_range req = (s, -EINVAL)) := by
  refine ⟨?_, ?_, ?_, ?_, ?_, ?_, ?_⟩
  · intro h0 h16
    by_cases h2 : req ≤ 2
    · exact ⟨2, by decide, h2, by intro g' hg' _; fin_cases hg' <;> omega,
        by simp [LSM303D.accel_set_range, LSM303D.modify_reg, LSM303D.write_reg,
                 LSM303D.read_reg, h0, h2]⟩
    · by_cases h4 : req ≤ 4
      · exact ⟨4, by decide, h4, by intro g' hg' hr; fin_cases hg' <;> omega,
          by simp [LSM303D.accel_set_range, LSM303D.modify_reg, LSM303D.write_reg,
                   LSM303D.read_reg, h0, h2, h4]⟩
      · by_cases h6 : req ≤ 6
        · exact ⟨6, by decide, h6, by intro g' hg' hr; fin_cases hg' <;> omega,
            by simp [LSM303D.accel_set_range, LSM303D.modify_reg, LSM303D.write_reg,
                     LSM303D.read_reg, h0, h2, h4, h6]⟩
        · by_cases h8 : req ≤ 8
          · exact ⟨8, by decide, h8, by intro g' hg' hr; fin_cases hg' <;> omega,
              by simp [LSM303D.accel_set_range, LSM303D.modify_reg, LSM303D.write_reg,
                       LSM303D.read_reg, h0, h2, h4, h6, h8]⟩
          · exact ⟨16, by decide, h16, by intro g' hg' hr; fin_cases hg' <;> omega,
              by simp [LSM303D.accel_set_range, LSM303D.modify_reg, LSM303D.write_reg,
                       LSM303D.read_reg, h0, h2, h4, h6, h8, h16]⟩
  · constructor <;>
      simp [LSM303D.accel_set_range, LSM303D.modify_reg, LSM303D.write_reg,
            LSM303D.read_reg]
  · simp [LSM303D.accel_set_range, LSM303D.modify_reg, LSM303D.write_reg,
          LSM303D.read_reg]
  · intro h
    have h0 : req ≠ 0 := by omega
    simp only [LSM303D.accel_set_range, if_neg h0]
    have : ¬ req ≤ 2 := by omega
    simp only [if_neg this]
    have : ¬ req ≤ 4 := by omega
    simp only [if_neg this]
    have : ¬ req ≤ 6 := by omega
    simp only [if_neg this]
    have : ¬ req ≤ 8 := by omega
    simp only [if_neg this]
    have : ¬ req ≤ 16 := by omega
    simp only [if_neg this]
  · intro h0 h12
    by_cases h2 : req ≤ 2
    · exact ⟨2, by decide, h2, by intro g' hg' _; fin_cases hg' <;> omega,
        by simp [LSM303D.mag_set_range, LSM303D.modify_reg, LSM303D.write_reg,
                 LSM303D.read_reg, h0, h2]⟩
    · by_cases h4 : req ≤ 4
      · exact ⟨4, by decide, h4, by intro g' hg' hr; fin_cases hg' <;> omega,
          by simp [LSM303D.mag_set_range, LSM303D.modify_reg, LSM303D.write_reg,
                   LSM303D.read_reg, h0, h2, h4]⟩
      · by_cases h8 : req ≤ 8
        · exact ⟨8, by decide, h8, by intro g' hg' hr; fin_cases hg' <;> omega,
            by simp [LSM303D.mag_set_range, LSM303D.modify_reg, LSM303D.write_reg,
                     LSM303D.read_reg, h0, h2, h4, h8]⟩
        · exact ⟨12, by decide, h12, by intro g' hg' hr; fin_cases hg' <;> omega,
            by simp [LSM303D.mag_set_range, LSM303D.modify_reg, LSM303D.write_reg,
                     LSM303D.read_reg, h0, h2, h4, h8, h12]⟩
  · constructor <;>
      simp [LSM303D.mag_set_range, LSM303D.modify_reg, LSM303D.write_reg,
            LSM303D.read_reg]
  · intro h
    have h0 : req ≠ 0 := by omega
    simp only [LSM303D.mag_set_range, if_neg h0]
    have : ¬ req ≤ 2 := by omega
    simp only [if_neg this]
    have : ¬ req ≤ 4 := by omega
    simp only [if_neg this]
    have : ¬ req ≤ 8 := by omega
    simp only [if_neg this]
    have : ¬ req ≤ 12 := by omega
    simp only [if_neg this]

/-- Claim C4 witness: the claim instantiated at the constructor state with a
5 g accel request and an 11 Ga mag request. -/
theorem claim_C4_range_selection_witness :
    (LSM303D.initState.accel_set_range 5).1.accel_range_m_s2 = 6 * LSM303D_ONE_G ∧
    (LSM303D.initState.mag_set_range 11).1.mag_range_ga = 12 := by
  have h := claim_C4_range_selection LSM303D.initState 11
  refine ⟨h.2.2.1, ?_⟩
  obtain ⟨g, hg, hle, hmin, -, hval⟩ := h.2.2.2.2.1 (by decide) (by decide)
  have : g = 12 := by
    have h12 := hmin 12 (by decide) (by decide)
    fin_cases hg <;> omega
  rw [hval, this]

/-- Claim C3: every requested sample rate selects the smallest supported
enumerated rate that is at least the request and stores it as the active
rate; 0 selects the maximum (1600 Hz accel, 100 Hz mag); 300 Hz yields
400 Hz; a request above the maximum is rejected with an out-of-range
error. -/
theorem claim_C3_samplerate_selection (s : LSM303D) (freq : Nat) :
    (freq ≠ 0 → freq ≤ 1600 →
      ∃ r ∈ accelSupportedRates, freq ≤ r ∧
        (∀ r' ∈ accelSupportedRates, freq ≤ r' → r ≤ r') ∧
        (s.accel_set_samplerate freq).2 = OK ∧
        (s.accel_set_samplerate freq).1.accel_samplerate = r) ∧
    ((s.accel_set_samplerate 0).2 = OK ∧
      (s.accel_set_samplerate 0).1.accel_samplerate = 1600) ∧
    (s.accel_set_samplerate 300).1.accel_samplerate = 400 ∧
    (1600 < freq → s.accel_set_samplerate freq = (s, -EINVAL)) ∧
    (freq ≠ 0 → freq ≤ 100 →
      ∃ r ∈ magSupportedRates, freq ≤ r ∧
        (∀ r' ∈ magSupportedRates, freq ≤ r' → r ≤ r') ∧
        (s.mag_set_samplerate freq).2 = OK ∧
        (s.mag_set_samplerate freq).1.mag_samplerate = r) ∧
    ((s.mag_set_samplerate 0).2 = OK ∧
      (s.mag_set_samplerate 0).1.mag_samplerate = 100) ∧
    (100 < freq → s.mag_set_samplerate freq = (s, -EINVAL)) := by
  refine ⟨?_, ?_, ?_, ?_, ?_, ?_, ?_⟩
  · intro h0 hmax
    by_cases h1 : freq ≤ 100
    · exact ⟨100, by decide, h1, by intro r' hr' _; fin_cases hr' <;> omega,
        by simp [LSM303D.accel_set_samplerate, LSM303D.modify_reg,
                 LSM303D.write_reg, LSM303D.read_reg, h0, h1]⟩
    · by_cases h2 : freq ≤ 200
      · exact ⟨200, by decide, h2, by intro r' hr' hr; fin_cases hr' <;> omega,
          by simp [LSM303D.accel_set_samplerate, LSM303D.modify_reg,
                   LSM303D.write_reg, LSM303D.read_reg, h0, h1, h2]⟩
      · by_cases h3 : freq ≤ 400
        · exact ⟨400, by decide, h3, by intro r' hr' hr; fin_cases hr' <;> omega,
            by simp [LSM303D.accel_set_samplerate, LSM303D.modify_reg,
                     LSM303D.write_reg, LSM303D.read_reg, h0, h1, h2, h3]⟩
        · by_cases h4 : freq ≤ 800
          · exact ⟨800, by decide, h4, by intro r' hr' hr; fin_cases hr' <;> omega,
              by simp [LSM303D.accel_set_samplerate, LSM303D.modify_reg,
                       LSM303D.write_reg, LSM303D.read_reg, h0, h1, h2, h3, h4]⟩
          · exact ⟨1600, by decide, hmax, by intro r' hr' hr; fin_cases hr' <;> omega,
              by simp [LSM303D.accel_set_samplerate, LSM303D.modify_reg,
                       LSM303D.write_reg, LSM303D.read_reg, h0, h1, h2, h3, h4, hmax]⟩
  · constructor <;>
      simp [LSM303D.accel_set_samplerate, LSM303D.modify_reg, LSM303D.write_reg,
            LSM303D.read_reg]
  · simp [LSM303D.accel_set_samplerate, LSM303D.modify_reg, LSM303D.write_reg,
          LSM303D.read_reg]
  · intro h
    have h0 : freq ≠ 0 := by omega
    simp only [LSM303D.accel_set_samplerate, if_neg h0]
    have : ¬ freq ≤ 100 := by omega
    simp only [if_neg this]
    have : ¬ freq ≤ 200 := by omega
    simp only [if_neg this]
    have : ¬ freq ≤ 400 := by omega
    simp only [if_neg this]
    have : ¬ freq ≤ 800 := by omega
    simp only [if_neg this]
    have : ¬ freq ≤ 1600 := by omega
    simp only [if_neg this]
  · intro h0 hmax
    by_cases h1 : freq ≤ 25
    · exact ⟨25, by decide, h1, by intro r' hr' _; fin_cases hr' <;> omega,
        by simp [LSM303D.mag_set_samplerate, LSM303D.modify_reg,
                 LSM303D.write_reg, LSM303D.read_reg, h0, h1]⟩
    · by_cases h2 : freq ≤ 50
      · exact ⟨50, by decide, h2, by intro r' hr' hr; fin_cases hr' <;> omega,
          by simp [LSM303D.mag_set_samplerate, LSM303D.modify_reg,
                   LSM303D.write_reg, LSM303D.read_reg, h0, h1, h2]⟩
      · exact ⟨100, by decide, hmax, by intro r' hr' hr; fin_cases hr' <;> omega,
          by simp [LSM303D.mag_set_samplerate, LSM303D.modify_reg,
                   LSM303D.write_reg, LSM303D.read_reg, h0, h1, h2, hmax]⟩
  · constructor <;>
      simp [LSM303D.mag_set_samplerate, LSM303D.modify_reg, LSM303D.write_reg,
            LSM303D.read_reg]
  · intro h
    have h0 : freq ≠ 0 := by omega
    simp only [LSM303D.mag_set_samplerate, if_neg h0]
    have : ¬ freq ≤ 25 := by omega
    simp only [if_neg this]
    have : ¬ freq ≤ 50 := by omega
    simp only [if_neg this]
    have : ¬ freq ≤ 100 := by omega
    simp only [if_neg this]

/-- Claim C3 witness: the claim instantiated at the constructor state with a
300 Hz accel request and a 30 Hz mag request. -/
theorem claim_C3_samplerate_selection_witness :
    (LSM303D.initState.accel_set_samplerate 300).1.accel_samplerate = 400 ∧
    (LSM303D.initState.mag_set_samplerate 30).1.mag_samplerate = 50 := by
  have h := claim_C3_samplerate_selection LSM303D.initState 30
  refine ⟨h.2.2.1, ?_⟩
  obtain ⟨r, hr, hle, hmin, -, hval⟩ := h.2.2.2.2.1 (by decide) (by decide)
  have : r = 50 := by
    have h50 := hmin 50 (by decide) (by decide)
    fin_cases hr <;> omega
  rw [hval, this]

/-- Claim C5: the accelerometer calibration setter stores the new offsets and
scales and returns OK exactly when the three scale factors sum to strictly
between 2.0 and 4.0; otherwise it returns an error and leaves the whole
driver state, the stored calibration included, unchanged. -/
theorem claim_C5_accel_scale_validation (s : LSM303D) (ns : AccelScale) :
    ((s.ioctl_accel_set_scale ns).2 = OK ↔
      2 < ns.x_scale + ns.y_scale + ns.z_scale ∧
      ns.x_scale + ns.y_scale + ns.z_scale < 4) ∧
    (2 < ns.x_scale + ns.y_scale + ns.z_scale ∧
        ns.x_scale + ns.y_scale + ns.z_scale < 4 →
      s.ioctl_accel_set_scale ns = ({ s with accel_scale := ns }, OK)) ∧
    (¬ (2 < ns.x_scale + ns.y_scale + ns.z_scale ∧
        ns.x_scale + ns.y_scale + ns.z_scale < 4) →
      s.ioctl_accel_set_scale ns = (s, -EINVAL)) := by
  refine ⟨?_, ?_, ?_⟩
  · constructor
    · intro h
      by_contra hc
      simp [LSM303D.ioctl_accel_set_scale, hc, OK, EINVAL] at h
    · intro h
      simp [LSM303D.ioctl_accel_set_scale, h]
  · intro h
    simp [LSM303D.ioctl_accel_set_scale, h]
  · intro h
    simp [LSM303D.ioctl_accel_set_scale, h]

/-- Claim C5 witness: a triple with scale sum 3 is accepted and one with
scale sum 6 is rejected without changing the state. -/
theorem claim_C5_accel_scale_validation_witness :
    (LSM303D.initState.ioctl_accel_set_scale
        { x_offset := 1, x_scale := 1, y_offset := 1, y_scale := 1,
          z_offset := 1, z_scale := 1 }).2 = OK ∧
    LSM303D.initState.ioctl_accel_set_scale
        { x_offset := 1, x_scale := 2, y_offset := 1, y_scale := 2,
          z_offset := 1, z_scale := 2 } = (LSM303D.initState, -EINVAL) := by
  constructor
  · exact ((claim_C5_accel_scale_validation LSM303D.initState _).1).2 (by norm_num)
  · exact (claim_C5_accel_scale_validation LSM303D.initState _).2.2 (by norm_num)

/-- Claim C6: the accelerometer self-test reports 1 exactly when no sample
has ever been produced, or some axis offset is zero within the 1e-6
tolerance, or some axis scale deviates from 1.0 by more than 0.4 or by less
than 1e-6; the magnetometer self-test applies the sample-count and
zero-offset checks but no scale check; both only ever return 0 or 1. -/
theorem claim_C6_self_tests (s : LSM303D) :
    (s.accel_self_test = 1 ↔
      s.accel_read = 0 ∨
      |s.accel_scale.x_offset| < 1 / 1000000 ∨
      (|s.accel_scale.x_scale - 1| > 2 / 5 ∨ |s.accel_scale.x_scale - 1| < 1 / 1000000) ∨
      |s.accel_scale.y_offset| < 1 / 1000000 ∨
      (|s.accel_scale.y_scale - 1| > 2 / 5 ∨ |s.accel_scale.y_scale - 1| < 1 / 1000000) ∨
      |s.accel_scale.z_offset| < 1 / 1000000 ∨
      (|s.accel_scale.z_scale - 1| > 2 / 5 ∨ |s.accel_scale.z_scale - 1| < 1 / 1000000)) ∧
    (s.accel_self_test = 0 ∨ s.accel_self_test = 1) ∧
    (s.mag_self_test = 1 ↔
      s.mag_read_count = 0 ∨
      |s.mag_scale.x_offset| < 1 / 1000000 ∨
      |s.mag_scale.y_offset| < 1 / 1000000 ∨
      |s.mag_scale.z_offset| < 1 / 1000000) ∧
    (s.mag_self_test = 0 ∨ s.mag_self_test = 1) := by
  refine ⟨?_, ?_, ?_, ?_⟩
  · unfold LSM303D.accel_self_test
    split_ifs <;> simp_all
  · unfold LSM303D.accel_self_test
    split_ifs <;> simp
  · unfold LSM303D.mag_self_test
    split_ifs <;> simp_all
  · unfold LSM303D.mag_self_test
    split_ifs <;> simp

/-- Claim C10: the magnetometer calibration setter performs no validation:
for every offset and scale triple it copies the values into the stored
calibration and returns success. -/
theorem claim_C10_mag_scale_unvalidated (s : LSM303D) (ns : MagScale) :
    s.mag_ioctl_set_scale ns = ({ s with mag_scale := ns }, OK) := rfl

/-- Claim C2 counterexample: configure a 400 Hz accelerometer rate, a 4 g
accelerometer range, a 194 Hz on-chip bandwidth and an 8 Ga mag range, then
reset: none of the pre-reset configured values survives — `reset` installs
the driver defaults (800 Hz, 8 g, 50 Hz, 2 Ga), so the claim that the
pre-reset configuration is reapplied is false. -/
theorem claim_C2_counterexample :
    ¬ (((((LSM303D.initState.accel_set_samplerate 400).1.accel_set_range 4).1.accel_set_onchip_lowpass_filter_bandwidth
          194).1.mag_set_range 8).1.reset.accel_samplerate =
        ((((LSM303D.initState.accel_set_samplerate 400).1.accel_set_range 4).1.accel_set_onchip_lowpass_filter_bandwidth
          194).1.mag_set_range 8).1.accel_samplerate) := by decide

/-- Claim C2 (amended): a device reset reapplies the driver *default*
configuration — 8 g range, 800 Hz rate, 50 Hz on-chip bandwidth, 30 Hz
driver filter cutoff, 2 Ga mag range, 100 Hz mag rate — regardless of what
was configured before the reset, while leaving the calibration scale/offset
of both channels untouched. -/
theorem claim_C2_reset_applies_defaults (s : LSM303D) :
    s.reset.accel_range_m_s2 = 8 * LSM303D_ONE_G ∧
    s.reset.accel_samplerate = 800 ∧
    s.reset.accel_onchip_filter_bandwith = 50 ∧
    s.reset.accel_filter_x.get_cutoff_freq = 30 ∧
    s.reset.accel_filter_y.get_cutoff_freq = 30 ∧
    s.reset.accel_filter_z.get_cutoff_freq = 30 ∧
    s.reset.mag_range_ga = 2 ∧
    s.reset.mag_samplerate = 100 ∧
    s.reset.accel_scale = s.accel_scale ∧
    s.reset.mag_scale = s.mag_scale := by
  refine ⟨?_, ?_, ?_, ?_, ?_, ?_, ?_, ?_, ?_, ?_⟩ <;> rfl

/-- Claim C8: a device reset leaves the accelerometer and magnetometer
calibration state (per-axis offset and scale) exactly unchanged, from every
prior driver state. -/
theorem claim_C8_reset_preserves_calibration (s : LSM303D) :
    s.reset.accel_scale = s.accel_scale ∧ s.reset.mag_scale = s.mag_scale :=
  ⟨rfl, rfl⟩

/-- Claim C9: every reset clears both measurement counters, so immediately
after a reset both self-tests report failure (1). -/
theorem claim_C9_reset_clears_counters (s : LSM303D) :
    s.reset.accel_read = 0 ∧ s.reset.mag_read_count = 0 ∧
    s.reset.accel_self_test = 1 ∧ s.reset.mag_self_test = 1 :=
  ⟨rfl, rfl, rfl, rfl⟩

/-- Claim C7: when the data-ready input reads not-ready, the accelerometer
measurement routine leaves the whole state unchanged except for the
reschedule counter — no sample is pushed, the measurement counter and all
configuration and calibration state stay as they were — and issues exactly
one reschedule of the trigger with a fixed 100 µs delay. -/
theorem claim_C7_not_ready_reschedules (s : LSM303D) (inp : MeasureInput)
    (h : inp.drdy = false) :
    (s.measure inp).1 = { s with accel_reschedules := s.accel_reschedules + 1 } ∧
    (s.measure inp).1.accel_reports = s.accel_reports ∧
    (s.measure inp).1.accel_read = s.accel_read ∧
    (s.measure inp).2 = [SchedEvent.delay 100] := by
  simp [LSM303D.measure, h]

/-- Claim C7 witness: the not-ready branch evaluated at the constructor
state. -/
theorem claim_C7_not_ready_reschedules_witness :
    (LSM303D.initState.measure
        { drdy := false, timestamp := 0, x_raw := 0, y_raw := 0, z_raw := 0 }).1 =
      { LSM303D.initState with accel_reschedules := 1 } ∧
    (LSM303D.initState.measure
        { drdy := false, timestamp := 0, x_raw := 0, y_raw := 0, z_raw := 0 }).2 =
      [SchedEvent.delay 100] := by
  have h := claim_C7_not_ready_reschedules LSM303D.initState
    { drdy := false, timestamp := 0, x_raw := 0, y_raw := 0, z_raw := 0 } rfl
  exact ⟨h.1, h.2.2.2⟩

/-- Claim C1 (behaviour actually implemented): in manual-poll mode
(mag poll interval 0), with a healthy device and a full-size caller buffer,
the mag device-node read flushes the mag buffer and then runs the
*accelerometer* measurement routine (`measure`) instead of the mag one, so
it returns 0 bytes, hands no report to the caller, leaves the mag sample
buffer empty and the mag counter untouched, while the accel counter
advances — not the single mag sample the claim describes. -/
theorem claim_C1_manual_mag_read_bug :
    (LSM303D.initState.mag_read_op
        { drdy := true, timestamp := 5, x_raw := 1, y_raw := 2, z_raw := 3 }
        magReportSize).2.1 = 0 ∧
    (LSM303D.initState.mag_read_op
        { drdy := true, timestamp := 5, x_raw := 1, y_raw := 2, z_raw := 3 }
        magReportSize).2.2 = [] ∧
    (LSM303D.initState.mag_read_op
        { drdy := true, timestamp := 5, x_raw := 1, y_raw := 2, z_raw := 3 }
        magReportSize).1.mag_reports.items = [] ∧
    (LSM303D.initState.mag_read_op
        { drdy := true, timestamp := 5, x_raw := 1, y_raw := 2, z_raw := 3 }
        magReportSize).1.mag_read_count = 0 ∧
    (LSM303D.initState.mag_read_op
        { drdy := true, timestamp := 5, x_raw := 1, y_raw := 2, z_raw := 3 }
        magReportSize).1.accel_read = 1 := by decide
